import Mathlib

/-!
Verification of the Roll Call / Truth Social scraper pipeline (src/main.py).

The Python source is shallowly embedded: dictionaries become structures,
string truthiness becomes explicit emptiness tests, the per-post loop becomes
a recursive function emitting an event trace, and the two external
collaborators (the Anthropic translation call and the Discord webhook) become
function parameters (`Option`-valued, `none` modelling a raised exception /
non-success status).
-/

/-! ## Python string primitives -/

/-- Whitespace characters recognised by Python's `str.strip()` / regex `\s`
(ASCII fragment). -/
def pyIsSpace (c : Char) : Bool :=
  c = ' ' || c = '\t' || c = '\n' || c = '\r' || c = '\x0b' || c = '\x0c'

/-- List-level core of Python `str.strip()`: drop whitespace at both ends. -/
def stripList (l : List Char) : List Char :=
  ((l.dropWhile pyIsSpace).reverse.dropWhile pyIsSpace).reverse

/-- Python `s.strip()`. -/
def pyStrip (s : String) : String :=
  String.mk (stripList s.toList)

/-- `Translator.clean_text` (src/main.py:296-300): strip, with empty input
mapped to the empty string (which `strip` already does). -/
def clean_text (s : String) : String := pyStrip s

/-- Python string slicing `s[:n]` (character count). -/
def pyTake (n : Nat) (s : String) : String :=
  String.mk (s.toList.take n)

/-- Python `sep.join(parts)`. -/
def pyJoin (sep : String) : List String → String
  | [] => ""
  | [x] => x
  | x :: rest => x ++ sep ++ pyJoin sep rest

/-- Lexicographic `>` on code-point lists, as Python compares strings. -/
def lexGt : List Char → List Char → Bool
  | [], _ => false
  | _ :: _, [] => true
  | a :: as, b :: bs => if a = b then lexGt as bs else decide (b < a)

/-- Python `a > b` on strings (code-point lexicographic order). -/
def pyStrGt (a b : String) : Bool := lexGt a.toList b.toList

/-- Value of an ASCII digit, if any. -/
def pyDigit? (c : Char) : Option Nat :=
  if '0' ≤ c ∧ c ≤ '9' then some (c.toNat - 48) else none

/-- Digit-run tail of Python `int()` string parsing: digits, with single
underscores allowed between digits. -/
def pyIntDigitsGo (acc : Nat) : List Char → Option Nat
  | [] => some acc
  | '_' :: c :: rest =>
      match pyDigit? c with
      | some d => pyIntDigitsGo (acc * 10 + d) rest
      | none => none
  | c :: rest =>
      match pyDigit? c with
      | some d => pyIntDigitsGo (acc * 10 + d) rest
      | none => none

/-- Digit part of Python `int()`: at least one digit, underscores only between
digits. -/
def pyIntDigits : List Char → Option Nat
  | [] => none
  | c :: rest => (pyDigit? c).bind (fun d => pyIntDigitsGo d rest)

/-- Python `int(s)` on a string (whitespace-stripped, optional sign), `none`
when a `ValueError` would be raised.  Embeds the `to_int` helper of
src/main.py:564-568 (`try: return int(val) except: return None`). -/
def pyToInt (s : String) : Option Int :=
  match (pyStrip s).toList with
  | '+' :: rest => (pyIntDigits rest).map Int.ofNat
  | '-' :: rest => (pyIntDigits rest).map (fun n => -(Int.ofNat n : Int))
  | rest => (pyIntDigits rest).map Int.ofNat

/-- Python truthiness of an optional integer (`None` and `0` are falsy), as in
`if last_id_int and post_id_int:` (src/main.py:589). -/
def truthyOptInt : Option Int → Bool
  | none => false
  | some n => decide (n ≠ 0)

/-- Python truthiness of an optional string (`None` and `""` are falsy), as in
`if not check_last_id:` (src/main.py:572). -/
def truthyOptStr : Option String → Bool
  | none => false
  | some s => decide (s ≠ "")

/-! ## URL stripping (`re.sub(r'https?://[^\s]+', '', text)`) -/

/-- Greedy `[^\s]+` tail of the URL regex: require at least one non-whitespace
character and drop the maximal run. -/
def urlTail (rest : List Char) : Option (List Char) :=
  if (rest.takeWhile (fun c => ¬ pyIsSpace c)).length = 0 then none
  else some (rest.drop (rest.takeWhile (fun c => ¬ pyIsSpace c)).length)

/-- One step of the URL regex at the head of the list: if the list starts with
`http://` or `https://` followed by at least one non-whitespace character,
return the suffix after the (greedy) match. -/
def urlSplit (l : List Char) : Option (List Char) :=
  if l.take 8 = "https://".toList then urlTail (l.drop 8)
  else if l.take 7 = "http://".toList then urlTail (l.drop 7)
  else none

theorem urlTail_le {rest r : List Char} (h : urlTail rest = some r) :
    r.length ≤ rest.length := by
  unfold urlTail at h
  split at h
  · exact absurd h (by simp)
  · injection h with h
    subst h
    simp [List.length_drop]

theorem urlSplit_length {l r : List Char} (h : urlSplit l = some r) :
    r.length < l.length := by
  unfold urlSplit at h
  split at h
  · next h8 =>
    have hlen : l.length ≥ 8 := by
      have := congrArg List.length h8
      simp [List.length_take] at this
      omega
    have := urlTail_le h
    simp [List.length_drop] at this
    omega
  · split at h
    · next h7 =>
      have hlen : l.length ≥ 7 := by
        have := congrArg List.length h7
        simp [List.length_take] at this
        omega
      have := urlTail_le h
      simp [List.length_drop] at this
      omega
    · exact absurd h (by simp)

/-- Remove every URL match from the character list, keeping other characters,
exactly as `re.sub(r'https?://[^\s]+', '', text)` scans left to right.  The
fuel argument makes the recursion structural (so it evaluates by reduction);
fuel `l.length` is always enough, since every step strictly shrinks the list
(`urlSplit_length`). -/
def stripUrlsFuel : Nat → List Char → List Char
  | 0, _ => []
  | fuel + 1, l =>
    match urlSplit l with
    | some r => stripUrlsFuel fuel r
    | none =>
      match l with
      | [] => []
      | c :: rest => c :: stripUrlsFuel fuel rest

/-- `re.sub(r'https?://[^\s]+', '', text)` (src/main.py:312). -/
def stripUrls (s : String) : String :=
  String.mk (stripUrlsFuel s.toList.length s.toList)

/-- `Translator.has_translatable_content` (src/main.py:307-314): empty text is
not translatable; otherwise strip URL substrings, strip whitespace, and
require at least 10 remaining characters. -/
def has_translatable_content (text : String) : Bool :=
  if text = "" then false
  else decide (10 ≤ (pyStrip (stripUrls text)).length)

/-! ## Data model -/

/-- A Stage-1 post as produced by `HybridScraper.monitor_feed`
(src/main.py:137-146). -/
structure RawPost where
  id : String
  url : String
  content : String
  timestamp_str : String
  media_urls : List String
  deriving Repr, DecidableEq

/-- A Stage-2 record as produced by `HybridScraper.scrape_details`
(src/main.py:174-181): zero-valued defaults, `card_content` present only when
the page exposed a link-preview card. -/
structure Details where
  is_retruth : Bool
  retruth_header : String
  full_text : String
  media_urls : List String
  video_url : Option String
  card_content : Option String
  deriving Repr, DecidableEq

/-- The post dictionary after the merge step of `main`
(src/main.py:606-634): `retruth_header` and `video_url` keys are only present
when set there. -/
structure MergedPost where
  id : String
  url : String
  content : String
  timestamp_str : String
  media_urls : List String
  is_retruth : Bool
  retruth_header : Option String
  video_url : Option String
  deriving Repr, DecidableEq

/-- Merge logic of `main` (src/main.py:606-634): content is replaced by
`full_text` only when the latter is truthy and strictly longer; media urls are
replaced wholesale by the deep-scrape list when it is non-empty, otherwise the
Stage-1 list is kept; `video_url` is set only when truthy; `retruth_header` is
set only when `is_retruth`. -/
def mergePost (post : RawPost) (d : Details) : MergedPost :=
  let deep_media := d.media_urls
  let full_text := d.full_text
  { id := post.id
    url := post.url
    timestamp_str := post.timestamp_str
    is_retruth := d.is_retruth
    retruth_header := if d.is_retruth then some d.retruth_header else none
    video_url :=
      match d.video_url with
      | some v => if v = "" then none else some v
      | none => none
    content :=
      if full_text ≠ "" ∧ post.content.length < full_text.length then full_text
      else post.content
    media_urls := if deep_media.isEmpty then post.media_urls else deep_media }

/-- C1: for every base post and detail record, the merge replaces `content`
with `detail.full_text` exactly when that text is non-empty and strictly
longer (character count) than the base content, keeping the base content
otherwise; it replaces `media_urls` wholesale with the detail list exactly
when that list is non-empty, keeping the base list otherwise; the merged media
list is always one of the two input lists, never a combination. -/
theorem c1_merge_policy (post : RawPost) (d : Details) :
    ((d.full_text ≠ "" ∧ post.content.length < d.full_text.length) →
      (mergePost post d).content = d.full_text) ∧
    (¬ (d.full_text ≠ "" ∧ post.content.length < d.full_text.length) →
      (mergePost post d).content = post.content) ∧
    (d.media_urls ≠ [] → (mergePost post d).media_urls = d.media_urls) ∧
    (d.media_urls = [] → (mergePost post d).media_urls = post.media_urls) ∧
    ((mergePost post d).media_urls = d.media_urls ∨
      (mergePost post d).media_urls = post.media_urls) := by
  unfold mergePost
  refine ⟨?_, ?_, ?_, ?_, ?_⟩
  · intro h; simp [h]
  · intro h; simp [h]
  · intro h
    simp [List.isEmpty_iff, h]
  · intro h
    simp [h]
  · by_cases h : d.media_urls.isEmpty <;> simp [h]

/-- Witness for C1 at the spec's own merge-precedence example. -/
theorem c1_merge_policy_witness :
    (mergePost { id := "1", url := "u", content := "hi", timestamp_str := "",
                 media_urls := [] }
               { is_retruth := false, retruth_header := "",
                 full_text := "hi there", media_urls := ["m1"],
                 video_url := none, card_content := none }).content = "hi there" ∧
    (mergePost { id := "1", url := "u", content := "hi", timestamp_str := "",
                 media_urls := [] }
               { is_retruth := false, retruth_header := "",
                 full_text := "hi there", media_urls := ["m1"],
                 video_url := none, card_content := none }).media_urls = ["m1"] :=
  ⟨(c1_merge_policy _ _).1 (by decide),
   (c1_merge_policy _ _).2.2.1 (by decide)⟩

/-! ## Strip idempotence -/

theorem dropWhile_head_false (p : Char → Bool) :
    ∀ (l : List Char) (c : Char) (t : List Char),
      l.dropWhile p = c :: t → p c = false := by
  intro l
  induction l with
  | nil => intro c t h; simp [List.dropWhile] at h
  | cons a l ih =>
    intro c t h
    by_cases ha : p a
    · rw [List.dropWhile_cons_of_pos ha] at h
      exact ih c t h
    · rw [List.dropWhile_cons_of_neg ha] at h
      injection h with h1 h2
      subst h1
      exact Bool.of_not_eq_true ha

theorem dropWhile_dropWhile (p : Char → Bool) (l : List Char) :
    (l.dropWhile p).dropWhile p = l.dropWhile p := by
  cases h : l.dropWhile p with
  | nil => simp
  | cons c t =>
    have hc := dropWhile_head_false p l c t h
    simp [List.dropWhile_cons, hc]

theorem dropWhile_append_single (p : Char → Bool) (c : Char) (hc : p c = false) :
    ∀ xs : List Char, (xs ++ [c]).dropWhile p = xs.dropWhile p ++ [c] := by
  intro xs
  induction xs with
  | nil => simp [List.dropWhile_cons, hc]
  | cons x xs ih =>
    by_cases hx : p x
    · simp [List.dropWhile_cons, hx, ih]
    · simp [List.dropWhile_cons, hx]

theorem stripList_idem (l : List Char) : stripList (stripList l) = stripList l := by
  unfold stripList
  cases hA : l.dropWhile pyIsSpace with
  | nil => simp
  | cons c t =>
    have hc := dropWhile_head_false pyIsSpace l c t hA
    rw [List.reverse_cons, dropWhile_append_single pyIsSpace c hc]
    rw [List.reverse_append]
    simp only [List.reverse_singleton, List.singleton_append]
    rw [List.dropWhile_cons_of_neg (by simp [hc])]
    rw [List.reverse_cons, dropWhile_append_single pyIsSpace c hc]
    rw [List.reverse_reverse, dropWhile_dropWhile]
    simp

theorem pyStrip_idem (s : String) : pyStrip (pyStrip s) = pyStrip s := by
  unfold pyStrip
  show String.mk (stripList (stripList s.toList)) = _
  rw [stripList_idem]

/-! ## Prompt composition and translation (src/main.py:289-352, 637-668) -/

/-- Composite translation prompt parts built in `main` (src/main.py:641-663):
a retruth contributes a bracketed header marker and, when the post text is
non-empty, a bracketed shared-content marker before the text; a normal post
contributes its text; card content appends a link-preview marker. -/
def translation_parts (m : MergedPost) (original_text card_content : String) :
    List String :=
  (if m.is_retruth then
    ("[" ++ (m.retruth_header.getD "ReTruthed from ???") ++ "]") ::
      (if original_text ≠ "" then ["[SHARED_CONTENT]", original_text] else [])
  else
    (if original_text ≠ "" then [original_text] else [])) ++
  (if card_content ≠ "" then ["\n[LINK_PREVIEW]", card_content] else [])

/-- `Translator.translate_to_hungarian` (src/main.py:316-352).  The external
API call is the `collab` parameter; `collab text = none` models the call
raising, which the source catches and recovers from by returning the (cleaned)
input text.  The returned pair is (whether the collaborator was invoked, the
returned translation). -/
def translate_to_hungarian (collab : String → Option String) (text0 : String) :
    Bool × String :=
  let text := clean_text text0
  if text = "" ∨ pyStrip text = "" then (false, "")
  else if has_translatable_content text = false then (false, "")
  else
    match collab text with
    | some response => (true, pyStrip response)
    | none => (true, text)

/-- Python `f"**{x}**"`-style formatting of a possibly-missing dictionary
value (`dict.get` returns `None`, which formats as `"None"`). -/
def pyFormatOpt : Option String → String
  | some s => s
  | none => "None"

/-- Embed description assembled by `DiscordPoster.post_to_discord`
(src/main.py:372-398): truncate the original text at 1800 characters, prepend
the reshare header lines when the post is a retruth with no translation, show
only the translation when present (falling back to the original text), and
truncate the whole description at 4096 characters.  `none` means no
description is set (empty parts list). -/
def discordDescription (m : MergedPost) (translated_text original0 : String) :
    Option String :=
  let original_text :=
    if original0 ≠ "" ∧ 1800 < original0.length then
      pyTake 1800 original0 ++ "... [tovább az eredeti linken]"
    else original0
  let parts :=
    (if m.is_retruth ∧ translated_text = "" then
      ["**" ++ pyFormatOpt m.retruth_header ++ "**", "---"]
    else []) ++
    (if translated_text ≠ "" then [translated_text]
     else if original_text ≠ "" then [original_text] else [])
  let full_description := pyJoin "\n" parts
  let full_description :=
    if 4096 < full_description.length then pyTake 4093 full_description ++ "..."
    else full_description
  if parts.isEmpty then none else some full_description

/-- Result of running one post through the merge / prompt / translate /
format steps of the main loop (src/main.py:604-670). -/
structure StepResult where
  merged : MergedPost
  original_text : String
  card_content : String
  full_input : String
  translatorCalled : Bool
  translated : String
  body : Option String
  deriving Repr, DecidableEq

/-- One iteration body of the per-post loop in `main` (src/main.py:604-670),
given the detail record already scraped: merge, clean the text, compose the
translation prompt, translate when there is any content, and build the
delivered description. -/
def processPost (collab : String → Option String) (post : RawPost)
    (d : Details) : StepResult :=
  let merged := mergePost post d
  let original_text := clean_text merged.content
  let card_content := d.card_content.getD ""
  let parts := translation_parts merged original_text card_content
  let full_input := pyJoin "\n" parts
  let tr := if parts.isEmpty then (false, "")
            else translate_to_hungarian collab full_input
  { merged := merged
    original_text := original_text
    card_content := card_content
    full_input := full_input
    translatorCalled := tr.1
    translated := tr.2
    body := discordDescription merged tr.2 original_text }

/-! ## Footer timestamp pattern (src/main.py:431-451)

The fixed pattern is `([A-Za-z]+ \d{1,2}, \d{4} @ \d{1,2}:\d{2} [AP]M ET)`.
Since every quantified class is followed by a literal outside the class, the
backtracking regex is equivalent to the deterministic maximal-run matcher
below. -/

def isAsciiLetter (c : Char) : Bool :=
  ('A' ≤ c ∧ c ≤ 'Z') ∨ ('a' ≤ c ∧ c ≤ 'z')

def isDigitChar (c : Char) : Bool :=
  '0' ≤ c ∧ c ≤ '9'

/-- Match a single literal character. -/
def litTok (c : Char) : List Char → Option (List Char)
  | x :: r => if x = c then some r else none
  | [] => none

/-- Match a maximal digit run whose length lies in `[lo, hi]` (the class is
followed by a non-digit literal, so the greedy quantifier cannot give a run of
any other length). -/
def digitsTok (lo hi : Nat) (l : List Char) : Option (List Char) :=
  if lo ≤ (l.takeWhile isDigitChar).length ∧
      (l.takeWhile isDigitChar).length ≤ hi then
    some (l.drop (l.takeWhile isDigitChar).length)
  else none

/-- Match `[A-Za-z]+` (maximal run, at least one letter). -/
def lettersTok (l : List Char) : Option (List Char) :=
  if (l.takeWhile isAsciiLetter).length = 0 then none
  else some (l.drop (l.takeWhile isAsciiLetter).length)

/-- Match `[AP]`. -/
def ampmTok : List Char → Option (List Char)
  | 'A' :: r => some r
  | 'P' :: r => some r
  | _ => none

/-- Run a sequence of token matchers left to right. -/
def runToks : List (List Char → Option (List Char)) → List Char →
    Option (List Char)
  | [], l => some l
  | f :: fs, l => (f l).bind (runToks fs)

/-- Tokens after the leading `[A-Za-z]+` of the timestamp pattern:
` \d{1,2}, \d{4} @ \d{1,2}:\d{2} [AP]M ET`. -/
def tsToks : List (List Char → Option (List Char)) :=
  [litTok ' ', digitsTok 1 2, litTok ',', litTok ' ', digitsTok 4 4,
   litTok ' ', litTok '@', litTok ' ', digitsTok 1 2, litTok ':',
   digitsTok 2 2, litTok ' ', ampmTok, litTok 'M', litTok ' ', litTok 'E',
   litTok 'T']

/-- Try to match the timestamp pattern at the head of `l`, returning the
unmatched remainder on success. -/
def matchTsAt (l : List Char) : Option (List Char) :=
  match lettersTok l with
  | none => none
  | some r1 => runToks tsToks r1

/-- `re.search` of the timestamp pattern: first position (left to right) where
the pattern matches, returning the matched substring. -/
def searchTsGo : List Char → Option (List Char)
  | [] => none
  | c :: rest =>
    match matchTsAt (c :: rest) with
    | some r => some ((c :: rest).take ((c :: rest).length - r.length))
    | none => searchTsGo rest

/-- `re.search(r"([A-Za-z]+ \d{1,2}, \d{4} @ \d{1,2}:\d{2} [AP]M ET)", s)`
(src/main.py:438), returning the matched group. -/
def searchTs (s : String) : Option String :=
  (searchTsGo s.toList).map String.mk

/-- Footer text set by `DiscordPoster.post_to_discord` (src/main.py:431-451):
start from the raw `timestamp_str`; when it is non-empty and the pattern
matches, use the matched substring; when the resulting string is non-empty use
it, otherwise fall back to the current time (`now`, Budapest-formatted by the
source) tagged `(Gen)`. -/
def footerText (timestamp_str now : String) : String :=
  let clean_time :=
    if timestamp_str ≠ "" then
      match searchTs timestamp_str with
      | some m => m
      | none => timestamp_str
    else timestamp_str
  if clean_time ≠ "" then
    "🤖 Generated by TotM AI\nposted on Truth: " ++ clean_time
  else
    "🤖 Generated by TotM AI\nposted on Truth: " ++ now ++ " (Gen)"

/-! ## Discord delivery (src/main.py:355-464) -/

/-- Observable outcome of `DiscordPoster.post_to_discord`: the description,
the footer, the HTTP status code of every webhook execution performed (the
source performs exactly one `webhook.execute()`, src/main.py:456), and whether
success was logged (status 200 or 204, src/main.py:458). -/
structure DiscordResult where
  body : Option String
  footer : String
  statusCodes : List Nat
  loggedSuccess : Bool
  deriving Repr, DecidableEq

/-- `DiscordPoster.post_to_discord` (src/main.py:361-464).  `send n` is the
status code returned by the `n`-th webhook execution; the source executes the
webhook exactly once and checks the status against `[200, 204]`, with no
retry of any kind. -/
def post_to_discord (send : Nat → Nat) (now : String) (m : MergedPost)
    (translated_text original_text : String) : DiscordResult :=
  { body := discordDescription m translated_text original_text
    footer := footerText m.timestamp_str now
    statusCodes := [send 0]
    loggedSuccess := decide (send 0 = 200 ∨ send 0 = 204) }

/-! ## New-post selection (src/main.py:541-594) -/

/-- Keep test of the filter loop in `main` (src/main.py:586-594): when both
the stored id and the post id are truthy integers (Python truthiness: parsed
and non-zero), keep numerically-greater posts; otherwise, when the stored
string is truthy, fall back to lexicographic string comparison. -/
def idKeep (last_id_int : Option Int) (check_last_id : String)
    (post : RawPost) : Bool :=
  let post_id_int := pyToInt post.id
  if truthyOptInt last_id_int && truthyOptInt post_id_int then
    match last_id_int, post_id_int with
    | some a, some b => decide (a < b)
    | _, _ => false
  else if check_last_id ≠ "" then pyStrGt post.id check_last_id
  else false

/-- New-post set computed by `main` (src/main.py:541-594) on the
chronologically ascending snapshot (the source reverses the fetched feed
first, src/main.py:558).  `force` is `FORCE_REPROCESS`; `stored` is the
persisted `last_id` (`none` when no state file exists).  With force mode the
stored id is discarded (`check_last_id = None`, src/main.py:541-545);
with no usable state the bootstrap branch picks the last 5 posts (force) or
only the newest post; otherwise the filter loop applies `idKeep`. -/
def selectNewPosts (force : Bool) (stored : Option String)
    (posts : List RawPost) : List RawPost :=
  let check_last_id : Option String := if force then none else stored
  let last_id_int : Option Int :=
    if truthyOptStr check_last_id then pyToInt (check_last_id.getD "")
    else none
  if truthyOptStr check_last_id = false then
    match posts.getLast? with
    | none => []
    | some newest =>
      if force then posts.drop (posts.length - 5) else [newest]
  else
    posts.filter (idKeep last_id_int (check_last_id.getD ""))

/-! ## Per-post loop with state persistence (src/main.py:596-676) -/

/-- Observable events of the processing loop: a Discord delivery (with the
description that was posted) and a state write (`StateManager.save_last_id`,
src/main.py:486-492). -/
inductive Event where
  | deliver (id : String) (body : Option String)
  | save (id : String)
  deriving Repr, DecidableEq

/-- The two external collaborators used inside the loop: the Stage-2 scraper
(detail record per post URL) and the translation call. -/
structure Env where
  details : String → Details
  translate : String → Option String

/-- Ids delivered, in order. -/
def deliveredIds : List Event → List String
  | [] => []
  | Event.deliver i _ :: t => i :: deliveredIds t
  | Event.save _ :: t => deliveredIds t

/-- Ids written to the state store, in order. -/
def savedIds : List Event → List String
  | [] => []
  | Event.deliver _ _ :: t => savedIds t
  | Event.save i :: t => i :: savedIds t

/-- The `for post in new_posts` loop of `main` (src/main.py:599-676): process
the post (merge, translate, format), deliver to Discord, then immediately set
`check_last_id` to this post's id and persist it, before moving to the next
post.  Returns the final in-memory `check_last_id` and the event trace. -/
def runBatch (env : Env) : Option String → List RawPost →
    Option String × List Event
  | check_last_id, [] => (check_last_id, [])
  | _, post :: rest =>
    let r := processPost env.translate post (env.details post.url)
    let next := runBatch env (some post.id) rest
    (next.1, Event.deliver post.id r.body :: Event.save post.id :: next.2)

/-! ## C2: new-post filtering against stored state -/

theorem lexGt_irrefl : ∀ l : List Char, lexGt l l = false := by
  intro l
  induction l with
  | nil => rfl
  | cons a as ih => simp [lexGt, ih]

theorem pyStrGt_self (s : String) : pyStrGt s s = false :=
  lexGt_irrefl s.toList

theorem idKeep_iff (L : String) (hL : L ≠ "") (p : RawPost) :
    idKeep (pyToInt L) L p = true ↔
      ((∃ a b, pyToInt L = some a ∧ pyToInt p.id = some b ∧
          a ≠ 0 ∧ b ≠ 0 ∧ a < b) ∨
        (((pyToInt L).getD 0 = 0 ∨ (pyToInt p.id).getD 0 = 0) ∧
          pyStrGt p.id L = true)) := by
  unfold idKeep
  cases hA : pyToInt L with
  | none => simp [truthyOptInt, hA, hL]
  | some a =>
    by_cases ha : a = 0
    · subst ha
      simp [truthyOptInt, hA, hL]
    · cases hB : pyToInt p.id with
      | none => simp [truthyOptInt, hA, hB, hL, ha]
      | some b =>
        by_cases hb : b = 0
        · subst hb
          simp [truthyOptInt, hA, hB, hL, ha]
        · simp [truthyOptInt, hA, hB, ha, hb]

theorem selectNewPosts_stored (L : String) (hL : L ≠ "") (posts : List RawPost) :
    selectNewPosts false (some L) posts =
      posts.filter (idKeep (pyToInt L) L) := by
  unfold selectNewPosts
  simp [truthyOptStr, hL]

/-- C2 (amended): with prior state `L` and normal mode, a fetched post is in
the new-post set iff its id is numerically greater than `L` when both values
parse as *non-zero* integers, and otherwise (unparseable **or zero** on either
side — Python truthiness) iff it is lexicographically greater as a string; a
post whose id equals the stored id is never included. -/
theorem c2_filter_amended (L : String) (posts : List RawPost) (p : RawPost)
    (hL : L ≠ "") :
    (p ∈ selectNewPosts false (some L) posts ↔
      p ∈ posts ∧
        ((∃ a b, pyToInt L = some a ∧ pyToInt p.id = some b ∧
            a ≠ 0 ∧ b ≠ 0 ∧ a < b) ∨
          (((pyToInt L).getD 0 = 0 ∨ (pyToInt p.id).getD 0 = 0) ∧
            pyStrGt p.id L = true))) ∧
    (p.id = L → p ∉ selectNewPosts false (some L) posts) := by
  constructor
  · rw [selectNewPosts_stored L hL posts, List.mem_filter, idKeep_iff L hL p]
  · intro hid hmem
    rw [selectNewPosts_stored L hL posts, List.mem_filter,
        idKeep_iff L hL p] at hmem
    rcases hmem.2 with ⟨a, b, hA, hB, ha, hb, hab⟩ | ⟨_, hgt⟩
    · rw [hid, hA] at hB
      injection hB with hB
      subst hB
      exact absurd hab (lt_irrefl a)
    · rw [hid, pyStrGt_self] at hgt
      exact Bool.false_ne_true hgt

/-- C2 counterexample to the claim as stated: with stored id `"0"` and a
fetched post with id `"00"`, numeric comparison is possible for both values
(`int("00") = 0 = int("0")`) and the post id is *not* numerically greater,
yet the post is included in the new-post set, because the source's truthiness
test `if last_id_int and post_id_int` treats the parsed integer `0` as falsy
and falls back to string comparison (`"00" > "0"` in Python). -/
theorem c2_zero_id_counterexample :
    pyToInt "00" = some 0 ∧ pyToInt "0" = some 0 ∧ ¬ ((0 : Int) < 0) ∧
    selectNewPosts false (some "0")
        [{ id := "00", url := "u", content := "", timestamp_str := "",
           media_urls := [] }] =
      [{ id := "00", url := "u", content := "", timestamp_str := "",
         media_urls := [] }] := by
  refine ⟨by decide, by decide, by decide, by decide⟩

/-- Witness for the amended C2 filter characterisation. -/
theorem c2_filter_amended_witness :
    { id := "7", url := "", content := "", timestamp_str := "",
      media_urls := [] } ∈
      selectNewPosts false (some "5")
        [{ id := "7", url := "", content := "", timestamp_str := "",
           media_urls := [] }] :=
  (c2_filter_amended "5" _ _ (by decide)).1.mpr
    ⟨by simp, Or.inl ⟨5, 7, by decide, by decide, by decide, by decide,
      by decide⟩⟩

/-! ## C3: first-run bootstrap -/

/-- Numeric key of a post id (`int(id)`, defaulting for the comparison
hypothesis below). -/
def idNum (p : RawPost) : Int := (pyToInt p.id).getD 0

theorem pairwise_getLast_max :
    ∀ (posts : List RawPost) (newest : RawPost),
      posts.getLast? = some newest →
      posts.Pairwise (fun a b => idNum a < idNum b) →
      ∀ q ∈ posts, idNum q ≤ idNum newest := by
  intro posts
  induction posts with
  | nil => intro newest h; simp at h
  | cons p rest ih =>
    intro newest hlast hpw q hq
    cases rest with
    | nil =>
      simp at hlast
      subst hlast
      simp at hq
      subst hq
      exact le_refl _
    | cons p2 rest2 =>
      have hlast' : (p2 :: rest2).getLast? = some newest := by
        rwa [List.getLast?_cons_cons] at hlast
      have hpw' := List.pairwise_cons.mp hpw
      rcases List.mem_cons.mp hq with hq | hq
      · subst hq
        have hnew_mem : newest ∈ p2 :: rest2 :=
          List.mem_of_getLast?_eq_some hlast'
        exact le_of_lt (hpw'.1 newest hnew_mem)
      · exact ih newest hlast' hpw'.2 q hq

/-- C3: on a first run (no usable prior state) in normal mode, with a
non-empty snapshot sorted ascending by numeric id (the fetcher contract), the
new-post set is exactly the last post, that post has the numerically largest
id, it is the only post delivered and the only id saved, and the final
in-memory state is its id. -/
theorem c3_bootstrap (env : Env) (stored : Option String)
    (posts : List RawPost) (newest : RawPost)
    (hstate : truthyOptStr stored = false)
    (hlast : posts.getLast? = some newest)
    (hsorted : posts.Pairwise (fun a b => idNum a < idNum b)) :
    selectNewPosts false stored posts = [newest] ∧
    (∀ q ∈ posts, idNum q ≤ idNum newest) ∧
    deliveredIds (runBatch env stored
      (selectNewPosts false stored posts)).2 = [newest.id] ∧
    savedIds (runBatch env stored
      (selectNewPosts false stored posts)).2 = [newest.id] ∧
    (runBatch env stored (selectNewPosts false stored posts)).1 =
      some newest.id := by
  have hsel : selectNewPosts false stored posts = [newest] := by
    unfold selectNewPosts
    simp [hstate, hlast]
  refine ⟨hsel, pairwise_getLast_max posts newest hlast hsorted, ?_, ?_, ?_⟩ <;>
    rw [hsel] <;> simp [runBatch, deliveredIds, savedIds]

/-- Witness for C3 at a concrete two-post ascending snapshot. -/
theorem c3_bootstrap_witness :
    selectNewPosts false none
        [{ id := "1", url := "a", content := "x", timestamp_str := "",
           media_urls := [] },
         { id := "2", url := "b", content := "y", timestamp_str := "",
           media_urls := [] }] =
      [{ id := "2", url := "b", content := "y", timestamp_str := "",
         media_urls := [] }] ∧
    (runBatch ⟨fun _ => { is_retruth := false, retruth_header := "",
                          full_text := "", media_urls := [],
                          video_url := none, card_content := none },
               fun _ => none⟩ none
      (selectNewPosts false none
        [{ id := "1", url := "a", content := "x", timestamp_str := "",
           media_urls := [] },
         { id := "2", url := "b", content := "y", timestamp_str := "",
           media_urls := [] }])).1 = some "2" := by
  have h := c3_bootstrap
    ⟨fun _ => { is_retruth := false, retruth_header := "", full_text := "",
                media_urls := [], video_url := none, card_content := none },
     fun _ => none⟩ none
    [{ id := "1", url := "a", content := "x", timestamp_str := "",
       media_urls := [] },
     { id := "2", url := "b", content := "y", timestamp_str := "",
       media_urls := [] }]
    { id := "2", url := "b", content := "y", timestamp_str := "",
      media_urls := [] }
    (by decide) (by decide)
    (by simp [List.pairwise_cons, idNum]; decide)
  exact ⟨h.1, h.2.2.2.2⟩

/-! ## C8: state persisted immediately after each delivery -/

theorem trace_prefix_sound (f : RawPost → Option String) :
    ∀ (posts : List RawPost) (n : Nat),
      savedIds ((posts.flatMap (fun p =>
          [Event.deliver p.id (f p), Event.save p.id])).take n) =
        deliveredIds ((posts.flatMap (fun p =>
          [Event.deliver p.id (f p), Event.save p.id])).take n) ∨
      ∃ x, deliveredIds ((posts.flatMap (fun p =>
          [Event.deliver p.id (f p), Event.save p.id])).take n) =
        savedIds ((posts.flatMap (fun p =>
          [Event.deliver p.id (f p), Event.save p.id])).take n) ++ [x] := by
  intro posts
  induction posts with
  | nil =>
    intro n
    left
    simp [savedIds, deliveredIds]
  | cons p rest ih =>
    intro n
    have hcons : ((p :: rest).flatMap (fun q =>
        [Event.deliver q.id (f q), Event.save q.id])) =
        Event.deliver p.id (f p) :: Event.save p.id ::
          rest.flatMap (fun q =>
            [Event.deliver q.id (f q), Event.save q.id]) := rfl
    rw [hcons]
    match n with
    | 0 =>
      left
      rfl
    | 1 =>
      right
      exact ⟨p.id, rfl⟩
    | (n + 2) =>
      rcases ih n with heq | ⟨x, hx⟩
      · left
        simp only [List.take_succ_cons, savedIds, deliveredIds]
        rw [heq]
      · right
        refine ⟨x, ?_⟩
        simp only [List.take_succ_cons, savedIds, deliveredIds]
        rw [hx]
        simp

theorem runBatch_trace (env : Env) :
    ∀ (check : Option String) (posts : List RawPost),
      (runBatch env check posts).2 =
        posts.flatMap (fun p =>
          [Event.deliver p.id
            (processPost env.translate p (env.details p.url)).body,
           Event.save p.id]) := by
  intro check posts
  induction posts generalizing check with
  | nil => rfl
  | cons p rest ih =>
    have hstep : (runBatch env check (p :: rest)).2 =
        Event.deliver p.id
            (processPost env.translate p (env.details p.url)).body ::
          Event.save p.id :: (runBatch env (some p.id) rest).2 := rfl
    rw [hstep, ih (some p.id)]
    rfl

/-- C8: the per-post loop writes the state id immediately after each
individual delivery (the trace is exactly a deliver/save pair per post, in
order, never batched), so in every prefix of the trace — every possible crash
point — the saved ids are exactly the delivered ids except possibly the single
last in-flight one. -/
theorem c8_save_per_post (env : Env) (check : Option String)
    (posts : List RawPost) :
    ((runBatch env check posts).2 =
      posts.flatMap (fun p =>
        [Event.deliver p.id
          (processPost env.translate p (env.details p.url)).body,
         Event.save p.id])) ∧
    (∀ n, savedIds (((runBatch env check posts).2).take n) =
            deliveredIds (((runBatch env check posts).2).take n) ∨
          ∃ x, deliveredIds (((runBatch env check posts).2).take n) =
            savedIds (((runBatch env check posts).2).take n) ++ [x]) := by
  refine ⟨runBatch_trace env check posts, ?_⟩
  intro n
  rw [runBatch_trace env check posts]
  exact trace_prefix_sound _ posts n

/-! ## C10: force-reprocess mode -/

/-- C10: with force-reprocess enabled the stored id is ignored for filtering —
the new-post set is always the last five posts of the (ascending) snapshot,
whatever state is persisted — and the state is then overwritten with each
reprocessed post's id in order, so the persisted id can strictly decrease:
with stored id "100" and snapshot ids "1".."5", every id "1".."5" is saved
in order and the final state is "5", numerically smaller than 100. -/
theorem c10_force_reprocess :
    (∀ (stored : Option String) (posts : List RawPost),
      selectNewPosts true stored posts = posts.drop (posts.length - 5)) ∧
    (savedIds (runBatch
        ⟨fun _ => { is_retruth := false, retruth_header := "",
                    full_text := "", media_urls := [], video_url := none,
                    card_content := none },
         fun _ => none⟩
        (some "100")
        (selectNewPosts true (some "100")
          [{ id := "1", url := "", content := "", timestamp_str := "",
             media_urls := [] },
           { id := "2", url := "", content := "", timestamp_str := "",
             media_urls := [] },
           { id := "3", url := "", content := "", timestamp_str := "",
             media_urls := [] },
           { id := "4", url := "", content := "", timestamp_str := "",
             media_urls := [] },
           { id := "5", url := "", content := "", timestamp_str := "",
             media_urls := [] }])).2 = ["1", "2", "3", "4", "5"] ∧
      (runBatch
        ⟨fun _ => { is_retruth := false, retruth_header := "",
                    full_text := "", media_urls := [], video_url := none,
                    card_content := none },
         fun _ => none⟩
        (some "100")
        (selectNewPosts true (some "100")
          [{ id := "1", url := "", content := "", timestamp_str := "",
             media_urls := [] },
           { id := "2", url := "", content := "", timestamp_str := "",
             media_urls := [] },
           { id := "3", url := "", content := "", timestamp_str := "",
             media_urls := [] },
           { id := "4", url := "", content := "", timestamp_str := "",
             media_urls := [] },
           { id := "5", url := "", content := "", timestamp_str := "",
             media_urls := [] }])).1 = some "5" ∧
      pyToInt "5" = some 5 ∧ pyToInt "100" = some 100 ∧ (5 : Int) < 100) := by
  constructor
  · intro stored posts
    cases h : posts.getLast? with
    | none =>
      have hnil : posts = [] := List.getLast?_eq_none_iff.mp h
      subst hnil
      simp [selectNewPosts, truthyOptStr]
    | some newest =>
      simp [selectNewPosts, truthyOptStr, h]
  · refine ⟨by decide, by decide, by decide, by decide, by decide⟩

/-! ## C6: delivery and rate limiting -/

/-- C6 (amended): `post_to_discord` executes the webhook exactly once per
post, whatever status the collaborator reports — a rate-limited (429) or any
other non-200/204 outcome is never retried, only logged as a failure. -/
theorem c6_delivery_single_attempt (send : Nat → Nat) (now : String)
    (m : MergedPost) (translated_text original_text : String) :
    (post_to_discord send now m translated_text original_text).statusCodes =
      [send 0] ∧
    (post_to_discord send now m translated_text original_text).statusCodes.length
      = 1 ∧
    ((post_to_discord send now m translated_text original_text).loggedSuccess
      = true ↔ (send 0 = 200 ∨ send 0 = 204)) := by
  refine ⟨rfl, rfl, ?_⟩
  simp [post_to_discord]

/-- C6 counterexample to the claim as stated: when the delivery collaborator
reports HTTP 429 (rate limited), the source still performs exactly one
webhook execution — there is no retry honoring a server delay, contradicting
the claimed bounded retry (which would require at least two attempts). -/
theorem c6_rate_limited_counterexample :
    (post_to_discord (fun _ => 429) "now"
        { id := "1", url := "u", content := "c", timestamp_str := "",
          media_urls := [], is_retruth := false, retruth_header := none,
          video_url := none } "t" "c").statusCodes = [429] ∧
    ¬ 2 ≤ (post_to_discord (fun _ => 429) "now"
        { id := "1", url := "u", content := "c", timestamp_str := "",
          media_urls := [], is_retruth := false, retruth_header := none,
          video_url := none } "t" "c").statusCodes.length ∧
    (post_to_discord (fun _ => 429) "now"
        { id := "1", url := "u", content := "c", timestamp_str := "",
          media_urls := [], is_retruth := false, retruth_header := none,
          video_url := none } "t" "c").loggedSuccess = false := by
  refine ⟨rfl, by decide, by decide⟩

/-! ## C7: footer timestamp -/

theorem litTok_lt {c : Char} {l r : List Char} (h : litTok c l = some r) :
    r.length < l.length := by
  cases l with
  | nil => simp [litTok] at h
  | cons x t =>
    simp only [litTok] at h
    split at h
    · injection h with h
      subst h
      simp
    · exact absurd h (by simp)

theorem digitsTok_le {lo hi : Nat} {l r : List Char}
    (h : digitsTok lo hi l = some r) : r.length ≤ l.length := by
  unfold digitsTok at h
  split at h
  · injection h with h
    subst h
    simp [List.length_drop]
  · exact absurd h (by simp)

theorem lettersTok_lt {l r : List Char} (h : lettersTok l = some r) :
    r.length < l.length := by
  unfold lettersTok at h
  split at h
  · exact absurd h (by simp)
  · next hrun =>
    injection h with h
    subst h
    cases l with
    | nil => simp [List.takeWhile] at hrun
    | cons x t =>
      simp only [List.length_drop, List.length_cons]
      omega

theorem ampmTok_lt {l r : List Char} (h : ampmTok l = some r) :
    r.length < l.length := by
  unfold ampmTok at h
  split at h
  · injection h with h; subst h; simp
  · injection h with h; subst h; simp
  · exact absurd h (by simp)

theorem runToks_le (fs : List (List Char → Option (List Char)))
    (hfs : ∀ f ∈ fs, ∀ (l r : List Char), f l = some r →
      r.length ≤ l.length) :
    ∀ (l r : List Char), runToks fs l = some r → r.length ≤ l.length := by
  induction fs with
  | nil =>
    intro l r h
    simp only [runToks] at h
    injection h with h
    subst h
    exact le_refl _
  | cons f fs ih =>
    intro l r h
    simp only [runToks, Option.bind_eq_some] at h
    obtain ⟨a, hfl, hrun⟩ := h
    have h1 := hfs f (List.mem_cons_self f fs) l a hfl
    have h2 := ih (fun g hg => hfs g (List.mem_cons_of_mem f hg)) a r hrun
    omega

theorem tsToks_le : ∀ f ∈ tsToks, ∀ (l r : List Char), f l = some r →
    r.length ≤ l.length := by
  intro f hf
  simp only [tsToks, List.mem_cons, List.not_mem_nil, or_false] at hf
  rcases hf with rfl | rfl | rfl | rfl | rfl | rfl | rfl | rfl | rfl | rfl |
    rfl | rfl | rfl | rfl | rfl | rfl | rfl
  all_goals intro l r h
  all_goals first
    | exact Nat.le_of_lt (litTok_lt h)
    | exact digitsTok_le h
    | exact Nat.le_of_lt (ampmTok_lt h)

theorem matchTsAt_lt {l r : List Char} (h : matchTsAt l = some r) :
    r.length < l.length := by
  unfold matchTsAt at h
  cases h1 : lettersTok l with
  | none => rw [h1] at h; exact absurd h (by simp)
  | some r1 =>
    rw [h1] at h
    have h2 := runToks_le tsToks tsToks_le r1 r h
    have h3 := lettersTok_lt h1
    omega

theorem searchTsGo_ne_nil : ∀ {l m : List Char},
    searchTsGo l = some m → m ≠ [] := by
  intro l
  induction l with
  | nil => intro m h; simp [searchTsGo] at h
  | cons c rest ih =>
    intro m h
    simp only [searchTsGo] at h
    cases h2 : matchTsAt (c :: rest) with
    | none =>
      rw [h2] at h
      exact ih h
    | some r =>
      rw [h2] at h
      injection h with h
      subst h
      have hlt := matchTsAt_lt h2
      intro hnil
      rw [List.take_eq_nil_iff] at hnil
      simp only [List.length_cons] at hlt hnil
      rcases hnil with hnil | hnil
      · omega
      · simp at hnil

theorem searchTs_ne_empty {s m : String} (h : searchTs s = some m) :
    m ≠ "" := by
  unfold searchTs at h
  cases h1 : searchTsGo s.toList with
  | none => rw [h1] at h; exact absurd h (by simp)
  | some lm =>
    rw [h1] at h
    have hm : String.mk lm = m := by simpa using h
    intro he
    rw [← hm] at he
    have hnil : lm = [] := congrArg String.data he
    exact searchTsGo_ne_nil h1 hnil

/-- C7 (amended): when the fixed pattern matches inside the feed timestamp
field, the footer carries exactly the matched substring; when the field is
non-empty but the pattern does *not* match, the footer carries the raw field
text unchanged (not the current time); only when the field is empty does the
footer fall back to the current time tagged `(Gen)`. -/
theorem c7_footer_amended (ts now : String) :
    (∀ m, searchTs ts = some m →
      footerText ts now =
        "🤖 Generated by TotM AI\nposted on Truth: " ++ m) ∧
    (ts ≠ "" → searchTs ts = none →
      footerText ts now =
        "🤖 Generated by TotM AI\nposted on Truth: " ++ ts) ∧
    (ts = "" →
      footerText ts now =
        "🤖 Generated by TotM AI\nposted on Truth: " ++ now ++ " (Gen)") := by
  refine ⟨?_, ?_, ?_⟩
  · intro m hm
    have hts : ts ≠ "" := by
      intro he
      subst he
      simp [searchTs, searchTsGo] at hm
    have hmne := searchTs_ne_empty hm
    simp [footerText, hts, hm, hmne]
  · intro hts hnone
    simp [footerText, hts, hnone]
  · intro hts
    subst hts
    simp [footerText]

/-- C7 counterexample to the claim as stated: with the non-empty timestamp
field `"hello"` the pattern fails to parse, yet the footer carries the raw
field text, not the current time tagged as generated. -/
theorem c7_footer_counterexample :
    searchTs "hello" = none ∧
    footerText "hello" "2026.10.12. 10:00" =
      "🤖 Generated by TotM AI\nposted on Truth: hello" ∧
    footerText "hello" "2026.10.12. 10:00" ≠
      "🤖 Generated by TotM AI\nposted on Truth: 2026.10.12. 10:00 (Gen)" := by
  refine ⟨by decide, by decide, by decide⟩

/-- Witness for the amended C7 footer behaviour on a timestamp field that
contains a pattern match with surrounding noise. -/
theorem c7_footer_amended_witness :
    footerText "Truth Social May 3, 2024 @ 7:15 PM ET · 2h" "now" =
      "🤖 Generated by TotM AI\nposted on Truth: May 3, 2024 @ 7:15 PM ET" :=
  (c7_footer_amended "Truth Social May 3, 2024 @ 7:15 PM ET · 2h" "now").1
    "May 3, 2024 @ 7:15 PM ET" (by decide)

/-! ## Translator and description lemmas -/

theorem hTC_ne_empty {s : String} (h : has_translatable_content s = true) :
    s ≠ "" := by
  intro he
  subst he
  simp [has_translatable_content] at h

theorem translate_skip (collab : String → Option String) (t : String)
    (h : has_translatable_content (pyStrip t) = false) :
    translate_to_hungarian collab t = (false, "") := by
  simp only [translate_to_hungarian, clean_text]
  split
  · rfl
  · simp [h]

theorem translate_fail (collab : String → Option String) (t : String)
    (h1 : has_translatable_content (pyStrip t) = true)
    (h2 : collab (pyStrip t) = none) :
    translate_to_hungarian collab t = (true, pyStrip t) := by
  have hne : pyStrip t ≠ "" := hTC_ne_empty h1
  have hidem := pyStrip_idem t
  simp only [translate_to_hungarian, clean_text]
  rw [if_neg (by simp [hne, hidem]), if_neg (by simp [h1]), h2]

theorem discordDescription_fallback (m : MergedPost) (o : String)
    (hr : m.is_retruth = false) (hlen : o.length ≤ 1800) :
    discordDescription m "" o = if o = "" then none else some o := by
  have h3 : ¬ (1800 < o.length) := by omega
  have h2 : ¬ (4096 < o.length) := by omega
  by_cases ho : o = ""
  · subst ho
    simp [discordDescription, hr]
  · simp [discordDescription, hr, ho, h3, h2, pyJoin]

theorem discordDescription_translated (m : MergedPost) (t o : String)
    (ht : t ≠ "") (hlen : t.length ≤ 4096) :
    discordDescription m t o = some t := by
  have h2 : ¬ (4096 < t.length) := by omega
  simp [discordDescription, ht, h2, pyJoin]

theorem processPost_original (collab : String → Option String)
    (post : RawPost) (d : Details) :
    (processPost collab post d).original_text =
      clean_text (mergePost post d).content := rfl

theorem processPost_full_input (collab : String → Option String)
    (post : RawPost) (d : Details) :
    (processPost collab post d).full_input =
      pyJoin "\n" (translation_parts (mergePost post d)
        (clean_text (mergePost post d).content) (d.card_content.getD "")) :=
  rfl

theorem processPost_called (collab : String → Option String)
    (post : RawPost) (d : Details) :
    (processPost collab post d).translatorCalled =
      (if (translation_parts (mergePost post d)
            (clean_text (mergePost post d).content)
            (d.card_content.getD "")).isEmpty then (false, "")
       else translate_to_hungarian collab
         (processPost collab post d).full_input).1 := rfl

theorem processPost_translated (collab : String → Option String)
    (post : RawPost) (d : Details) :
    (processPost collab post d).translated =
      (if (translation_parts (mergePost post d)
            (clean_text (mergePost post d).content)
            (d.card_content.getD "")).isEmpty then (false, "")
       else translate_to_hungarian collab
         (processPost collab post d).full_input).2 := rfl

theorem processPost_body (collab : String → Option String)
    (post : RawPost) (d : Details) :
    (processPost collab post d).body =
      discordDescription (mergePost post d)
        (processPost collab post d).translated
        (processPost collab post d).original_text := rfl

theorem mergePost_is_retruth (post : RawPost) (d : Details) :
    (mergePost post d).is_retruth = d.is_retruth := rfl

theorem mergePost_header (post : RawPost) (d : Details) :
    (mergePost post d).retruth_header =
      if d.is_retruth then some d.retruth_header else none := rfl

/-- Shape of the translation-prompt parts for a plain (non-retruth, cardless)
post: just the cleaned text, or nothing. -/
theorem translation_parts_plain (post : RawPost) (d : Details) (o : String)
    (hr : d.is_retruth = false) (hc : d.card_content.getD "" = "") :
    translation_parts (mergePost post d) o (d.card_content.getD "") =
      if o ≠ "" then [o] else [] := by
  rw [hc]
  simp only [translation_parts, mergePost_is_retruth, hr]
  by_cases ho : o = "" <;> simp [ho]

/-- Shape of the translation-prompt parts for a retruth with no card. -/
theorem translation_parts_retruth (post : RawPost) (d : Details) (o : String)
    (hr : d.is_retruth = true) (hc : d.card_content.getD "" = "")
    (ho : o ≠ "") :
    translation_parts (mergePost post d) o (d.card_content.getD "") =
      ["[" ++ d.retruth_header ++ "]", "[SHARED_CONTENT]", o] := by
  rw [hc]
  simp only [translation_parts, mergePost_is_retruth, mergePost_header, hr]
  simp [ho]

/-! ## C9: retruth prompt composition -/

theorem pyJoin_three (a b c : String) :
    pyJoin "\n" [a, b, c] = a ++ "\n" ++ b ++ "\n" ++ c := by
  simp [pyJoin, String.append_assoc]

/-- C9: for a merged retruth with a non-empty header, non-empty cleaned
content and no card content, the composed translation prompt is exactly the
bracketed reshare-header marker, then the bracketed shared-content marker,
then the content — markers in that order with the content after the
shared-content marker. -/
theorem c9_retruth_prompt (collab : String → Option String) (post : RawPost)
    (d : Details) (hr : d.is_retruth = true) (hh : d.retruth_header ≠ "")
    (hc : d.card_content.getD "" = "")
    (ho : (processPost collab post d).original_text ≠ "") :
    (processPost collab post d).full_input =
      "[" ++ d.retruth_header ++ "]" ++ "\n" ++ "[SHARED_CONTENT]" ++ "\n" ++
        (processPost collab post d).original_text := by
  rw [processPost_original] at ho ⊢
  rw [processPost_full_input,
      translation_parts_retruth post d _ hr hc ho, pyJoin_three]

/-- Witness for C9 at the spec's own example (header `"ReTruthed from @Foo"`,
content `"nice"`). -/
theorem c9_retruth_prompt_witness :
    (processPost (fun _ => none)
        { id := "9", url := "u", content := "nice", timestamp_str := "",
          media_urls := [] }
        { is_retruth := true, retruth_header := "ReTruthed from @Foo",
          full_text := "", media_urls := [], video_url := none,
          card_content := none }).full_input =
      "[ReTruthed from @Foo]\n[SHARED_CONTENT]\nnice" := by
  have h := c9_retruth_prompt (fun _ => none)
    { id := "9", url := "u", content := "nice", timestamp_str := "",
      media_urls := [] }
    { is_retruth := true, retruth_header := "ReTruthed from @Foo",
      full_text := "", media_urls := [], video_url := none,
      card_content := none }
    (by decide) (by decide) (by decide) (by decide)
  rw [h]
  decide

/-! ## C4: URL-only content -/

/-- C4 (amended): whenever the composed translation input is URL-only (fewer
than 10 non-URL characters remain after stripping URL substrings), the
translation collaborator is never invoked and the translated text is empty;
when additionally the post is not a retruth (no card content) and the original
text is within the 1800-character truncation budget, the delivered description
equals the original untranslated text (and is absent when that text is
empty). -/
theorem c4_url_only_amended (collab : String → Option String) (post : RawPost)
    (d : Details) (hr : d.is_retruth = false)
    (hc : d.card_content.getD "" = "")
    (hurl : has_translatable_content
      (pyStrip (processPost collab post d).full_input) = false)
    (hlen : (processPost collab post d).original_text.length ≤ 1800) :
    (processPost collab post d).translatorCalled = false ∧
    (processPost collab post d).translated = "" ∧
    ((processPost collab post d).original_text ≠ "" →
      (processPost collab post d).body =
        some (processPost collab post d).original_text) ∧
    ((processPost collab post d).original_text = "" →
      (processPost collab post d).body = none) := by
  rw [processPost_original] at hlen ⊢
  have hparts := translation_parts_plain post d
    (clean_text (mergePost post d).content) hr hc
  have hmr : (mergePost post d).is_retruth = false := by
    rw [mergePost_is_retruth, hr]
  by_cases ho : clean_text (mergePost post d).content = ""
  · have hpempty : (translation_parts (mergePost post d)
        (clean_text (mergePost post d).content)
        (d.card_content.getD "")).isEmpty = true := by
      rw [hparts]
      simp [ho]
    refine ⟨?_, ?_, ?_, ?_⟩
    · rw [processPost_called, if_pos hpempty]
    · rw [processPost_translated, if_pos hpempty]
    · intro hcontra
      exact absurd ho hcontra
    · intro _
      rw [processPost_body, processPost_translated, if_pos hpempty,
          processPost_original,
          discordDescription_fallback _ _ hmr hlen, if_pos ho]
  · have hfi : (processPost collab post d).full_input =
        clean_text (mergePost post d).content := by
      rw [processPost_full_input, hparts, if_pos ho]
      rfl
    have hpne : (translation_parts (mergePost post d)
        (clean_text (mergePost post d).content)
        (d.card_content.getD "")).isEmpty = false := by
      rw [hparts]
      simp [ho]
    have htr : translate_to_hungarian collab
        (processPost collab post d).full_input = (false, "") := by
      apply translate_skip
      exact hurl
    refine ⟨?_, ?_, ?_, ?_⟩
    · rw [processPost_called, if_neg (by simp [hpne]), htr]
    · rw [processPost_translated, if_neg (by simp [hpne]), htr]
    · intro _
      rw [processPost_body, processPost_translated,
          if_neg (by simp [hpne]), htr, processPost_original,
          discordDescription_fallback _ _ hmr hlen, if_neg ho]
    · intro hcontra
      exact absurd hcontra ho

/-- Witness for the amended C4 on a post whose content is a single URL. -/
theorem c4_url_only_amended_witness :
    (processPost (fun _ => none)
        { id := "4", url := "u", content := "https://x.co/abc",
          timestamp_str := "", media_urls := [] }
        { is_retruth := false, retruth_header := "", full_text := "",
          media_urls := [], video_url := none,
          card_content := none }).translatorCalled = false ∧
    (processPost (fun _ => none)
        { id := "4", url := "u", content := "https://x.co/abc",
          timestamp_str := "", media_urls := [] }
        { is_retruth := false, retruth_header := "", full_text := "",
          media_urls := [], video_url := none,
          card_content := none }).body = some "https://x.co/abc" := by
  have h := c4_url_only_amended (fun _ => none)
    { id := "4", url := "u", content := "https://x.co/abc",
      timestamp_str := "", media_urls := [] }
    { is_retruth := false, retruth_header := "", full_text := "",
      media_urls := [], video_url := none, card_content := none }
    (by decide) (by decide) (by decide) (by decide)
  refine ⟨h.1, ?_⟩
  have hb := h.2.2.1 (by decide)
  rw [hb]
  decide

/-! ## C5: translation failure recovery -/

/-- C5 (amended): a failed translation call is recovered inside
`translate_to_hungarian` — the function is total, nothing propagates — and the
translator returns its cleaned composite input, which becomes the delivered
description; that description equals the post's original text exactly in the
plain case (not a retruth, no card content, text within the 4096 budget),
because the composite input then coincides with the original text. -/
theorem c5_translation_failure_amended (collab : String → Option String)
    (post : RawPost) (d : Details) (hr : d.is_retruth = false)
    (hc : d.card_content.getD "" = "")
    (htc : has_translatable_content
      (pyStrip (processPost collab post d).full_input) = true)
    (hfail : collab (pyStrip (processPost collab post d).full_input) = none)
    (hlen : (processPost collab post d).original_text.length ≤ 4096) :
    (processPost collab post d).translatorCalled = true ∧
    (processPost collab post d).translated =
      (processPost collab post d).original_text ∧
    (processPost collab post d).body =
      some (processPost collab post d).original_text := by
  rw [processPost_original] at hlen ⊢
  have hparts := translation_parts_plain post d
    (clean_text (mergePost post d).content) hr hc
  by_cases ho : clean_text (mergePost post d).content = ""
  · exfalso
    have hfi : (processPost collab post d).full_input = "" := by
      rw [processPost_full_input, hparts, if_neg (by simp [ho])]
      rfl
    rw [hfi] at htc
    have : pyStrip "" = "" := rfl
    rw [this] at htc
    simp [has_translatable_content] at htc
  · have hfi : (processPost collab post d).full_input =
        clean_text (mergePost post d).content := by
      rw [processPost_full_input, hparts, if_pos ho]
      rfl
    have hstrip : pyStrip (processPost collab post d).full_input =
        clean_text (mergePost post d).content := by
      rw [hfi]
      exact pyStrip_idem _
    have hpne : (translation_parts (mergePost post d)
        (clean_text (mergePost post d).content)
        (d.card_content.getD "")).isEmpty = false := by
      rw [hparts]
      simp [ho]
    have htr : translate_to_hungarian collab
        (processPost collab post d).full_input =
        (true, clean_text (mergePost post d).content) := by
      rw [translate_fail collab _ htc hfail, hstrip]
    refine ⟨?_, ?_, ?_⟩
    · rw [processPost_called, if_neg (by simp [hpne]), htr]
    · rw [processPost_translated, if_neg (by simp [hpne]), htr]
    · rw [processPost_body, processPost_translated,
          if_neg (by simp [hpne]), htr, processPost_original]
      exact discordDescription_translated _ _ _ ho hlen

/-- Witness for the amended C5: a failing collaborator on a plain post leaves
the original text as the delivered description. -/
theorem c5_translation_failure_amended_witness :
    (processPost (fun _ => none)
        { id := "5", url := "u", content := "the quick brown fox jumps",
          timestamp_str := "", media_urls := [] }
        { is_retruth := false, retruth_header := "", full_text := "",
          media_urls := [], video_url := none,
          card_content := none }).translatorCalled = true ∧
    (processPost (fun _ => none)
        { id := "5", url := "u", content := "the quick brown fox jumps",
          timestamp_str := "", media_urls := [] }
        { is_retruth := false, retruth_header := "", full_text := "",
          media_urls := [], video_url := none,
          card_content := none }).body =
      some "the quick brown fox jumps" := by
  have h := c5_translation_failure_amended (fun _ => none)
    { id := "5", url := "u", content := "the quick brown fox jumps",
      timestamp_str := "", media_urls := [] }
    { is_retruth := false, retruth_header := "", full_text := "",
      media_urls := [], video_url := none, card_content := none }
    (by decide) (by decide) (by decide) (by decide) (by decide)
  refine ⟨h.1, ?_⟩
  rw [h.2.2]
  decide

/-- C5 counterexample to the claim as stated: for a retruth whose translation
call fails, the failure is recovered, but the delivered description is the
composite translation *input* — reshare-header marker, shared-content marker
and all — not the post's original text. -/
theorem c5_translation_failure_counterexample :
    (processPost (fun _ => none)
        { id := "5", url := "u", content := "nice stuff here yes",
          timestamp_str := "", media_urls := [] }
        { is_retruth := true, retruth_header := "ReTruthed from @Foo",
          full_text := "", media_urls := [], video_url := none,
          card_content := none }).translatorCalled = true ∧
    (processPost (fun _ => none)
        { id := "5", url := "u", content := "nice stuff here yes",
          timestamp_str := "", media_urls := [] }
        { is_retruth := true, retruth_header := "ReTruthed from @Foo",
          full_text := "", media_urls := [], video_url := none,
          card_content := none }).original_text = "nice stuff here yes" ∧
    (processPost (fun _ => none)
        { id := "5", url := "u", content := "nice stuff here yes",
          timestamp_str := "", media_urls := [] }
        { is_retruth := true, retruth_header := "ReTruthed from @Foo",
          full_text := "", media_urls := [], video_url := none,
          card_content := none }).body =
      some "[ReTruthed from @Foo]\n[SHARED_CONTENT]\nnice stuff here yes" ∧
    (processPost (fun _ => none)
        { id := "5", url := "u", content := "nice stuff here yes",
          timestamp_str := "", media_urls := [] }
        { is_retruth := true, retruth_header := "ReTruthed from @Foo",
          full_text := "", media_urls := [], video_url := none,
          card_content := none }).body ≠ some "nice stuff here yes" := by
  refine ⟨by decide, by decide, by decide, by decide⟩

/-- C4 counterexample to the claim as stated: a retruth with header `"@X"`
and no post text yields the composite translation input `"[@X]"`, which has
fewer than 10 non-URL characters after URL stripping, so the collaborator is
(correctly) never called — but the delivered description is the reshare-header
block `"**@X**\n---"`, not the original (empty) untranslated text, because
`post_to_discord` prepends the header lines whenever a retruth has no
translation (src/main.py:382-384). -/
theorem c4_url_only_counterexample :
    (processPost (fun _ => none)
        { id := "4", url := "u", content := "", timestamp_str := "",
          media_urls := [] }
        { is_retruth := true, retruth_header := "@X", full_text := "",
          media_urls := [], video_url := none,
          card_content := none }).full_input = "[@X]" ∧
    has_translatable_content
      (pyStrip (processPost (fun _ => none)
        { id := "4", url := "u", content := "", timestamp_str := "",
          media_urls := [] }
        { is_retruth := true, retruth_header := "@X", full_text := "",
          media_urls := [], video_url := none,
          card_content := none }).full_input) = false ∧
    (processPost (fun _ => none)
        { id := "4", url := "u", content := "", timestamp_str := "",
          media_urls := [] }
        { is_retruth := true, retruth_header := "@X", full_text := "",
          media_urls := [], video_url := none,
          card_content := none }).translatorCalled = false ∧
    (processPost (fun _ => none)
        { id := "4", url := "u", content := "", timestamp_str := "",
          media_urls := [] }
        { is_retruth := true, retruth_header := "@X", full_text := "",
          media_urls := [], video_url := none,
          card_content := none }).body = some "**@X**\n---" ∧
    (processPost (fun _ => none)
        { id := "4", url := "u", content := "", timestamp_str := "",
          media_urls := [] }
        { is_retruth := true, retruth_header := "@X", full_text := "",
          media_urls := [], video_url := none,
          card_content := none }).body ≠
      some (processPost (fun _ => none)
        { id := "4", url := "u", content := "", timestamp_str := "",
          media_urls := [] }
        { is_retruth := true, retruth_header := "@X", full_text := "",
          media_urls := [], video_url := none,
          card_content := none }).original_text := by
  refine ⟨by decide, by decide, by decide, by decide, by decide⟩
